import Mathlib

set_option maxRecDepth 16384

/-!
Verification development for the REST-API test-automation helper.

The definitions below are a shallow embedding of the Python sources:
`src/github_utils.py` (nested JSON section reader, service-schema resolver)
and `rest_api_taf_helper.py` (session-scoped MCP tools: repository
connection, swagger reading, DTO generation, push preparation, and the
prompt-building / output-normalisation logic of `generate_dto_prompt`).

JSON values are modelled by the inductive `Json`.  An `obj` node models a
Python dict produced by `json.loads` (keys distinct, insertion order kept);
`num` models an integer literal (no claim depends on float formatting).
External collaborators (GitHub fetch, the LLM backend) are modelled as
oracle parameters, exactly as the spec declares them out of scope.
-/

inductive Json where
  | null
  | bool (b : Bool)
  | num (n : Int)
  | str (s : String)
  | arr (items : List Json)
  | obj (fields : List (String × Json))

/-- Python truthiness of a JSON value: `None`, `False`, `0`, `""`, `[]`,
`\x7b\x7d` are falsy, everything else truthy. -/
def truthy : Json → Bool
  | .null => false
  | .bool b => b
  | .num n => n != 0
  | .str s => s != ""
  | .arr items => !items.isEmpty
  | .obj fields => !fields.isEmpty

/-- Whether a JSON value is the literal `null` (Python `None`). -/
def Json.isNull : Json → Bool
  | .null => true
  | _ => false

/-- Dict lookup, `d.get(key)` on the field list of an `obj` node. -/
def lookupKey : List (String × Json) → String → Option Json
  | [], _ => none
  | (k, v) :: rest, key => if k = key then some v else lookupKey rest key

/-- Does `pat` stand at the front of `l`?  (Bool-valued, by recursion, so
that all substring facts below can be computed and proved by induction.) -/
def leadsWith : List Char → List Char → Bool
  | [], _ => true
  | _ :: _, [] => false
  | a :: as, b :: bs => (a = b) && leadsWith as bs

/-- Does `pat` occur contiguously anywhere in `l`? -/
def occursIn (pat : List Char) : List Char → Bool
  | [] => leadsWith pat []
  | c :: t => leadsWith pat (c :: t) || occursIn pat t

/-- Python substring test `pat in s`. -/
def hasSubstr (s pat : String) : Bool := occursIn pat.data s.data

/-- Python `str.isspace` characters relevant here (ASCII whitespace; exotic
Unicode space code points are not used by any claim). -/
def pyIsSpace (c : Char) : Bool :=
  c = ' ' || c = '\t' || c = '\n' || c = '\r' || c = '\x0b' || c = '\x0c'

/-- Drop the longest suffix of `l` all of whose characters satisfy `p`. -/
def dropRightWhileL (p : Char → Bool) (l : List Char) : List Char :=
  (l.reverse.dropWhile p).reverse

/-- Python `s.strip()`. -/
def pyStrip (s : String) : String :=
  String.mk (dropRightWhileL pyIsSpace (s.data.dropWhile pyIsSpace))

/-- Python `s.rstrip()`. -/
def pyRstrip (s : String) : String :=
  String.mk (dropRightWhileL pyIsSpace s.data)

/-- Python `s.rstrip('/')` as used for the folder path. -/
def pyRstripSlash (s : String) : String :=
  String.mk (dropRightWhileL (fun c => c = '/') s.data)

/- ---------------------------------------------------------------------
Nested Section Reader: the navigation loop of
`read_nested_json_section` (src/github_utils.py lines 57-68).
--------------------------------------------------------------------- -/

inductive NavErr where
  | sectionNotFound (key : String)
  | notNavigable (key : String)

/-- The navigation loop of `read_nested_json_section`: walk the parsed
document one key at a time.  A step first requires the current value to be
a dict (else `JsonSectionNotFoundError "Cannot navigate to ..."`), then
takes `current.get(key)` and fails with `"Section ... not found"` when the
result is `None` — which happens both when the key is absent and when its
stored value is JSON `null`. -/
def readSection : Json → List String → Except NavErr Json
  | doc, [] => .ok doc
  | doc, key :: rest =>
    match doc with
    | .obj fields =>
      match lookupKey fields key with
      | none => .error (.sectionNotFound key)
      | some v =>
        if v.isNull then .error (.sectionNotFound key) else readSection v rest
    | _ => .error (.notNavigable key)

/-- Python `repr` of a list of strings, as interpolated into the
diagnostic f-strings. -/
def renderPyList (keys : List String) : String :=
  "[" ++ String.intercalate ", " (keys.map (fun k => "\x27" ++ k ++ "\x27")) ++ "]"

/-- The message of the `JsonSectionNotFoundError` raised inside the loop. -/
def navErrText (e : NavErr) (section_path : List String) (file_path : String) : String :=
  match e with
  | .sectionNotFound key =>
    "Section \x27" ++ key ++ "\x27 not found. section path " ++
      renderPyList section_path ++ ", file path " ++ file_path
  | .notNavigable key =>
    "Cannot navigate to " ++ key ++ ". Current section is not a dictionary. section path " ++
      renderPyList section_path ++ ", file path " ++ file_path

/-- `read_nested_json_section` at the document level: the GitHub fetch,
base64 decode and `json.loads` have already produced `doc` (those layers
are external collaborators).  Any navigation failure is re-wrapped into a
`GitHubJsonReaderError` carrying an aggregated message. -/
def read_nested_json_section (doc : Json) (file_path : String)
    (section_path : List String) : Except String Json :=
  match readSection doc section_path with
  | .ok v => .ok v
  | .error e =>
    .error ("An error occurred: " ++ navErrText e section_path file_path ++
      ". section path " ++ renderPyList section_path ++ ", file path " ++ file_path)

/- ---------------------------------------------------------------------
Schema Resolver: `get_service_schemas` (src/github_utils.py lines 73-93).
--------------------------------------------------------------------- -/

/-- The value held by the local variable after an attempt: the section on
success, the initial `""` when the read raised. -/
def attemptValue : Except String Json → Json
  | .ok v => v
  | .error _ => .str ""

/-- `get_service_schemas`: try `["components", "schemas"]`, and when the
result is falsy (read failed, or an empty/falsy section came back) try
`["definitions"]`; when both are falsy raise the aggregated
`GitHubJsonReaderError`, else return the first truthy section. -/
def get_service_schemas (doc : Json) (service_name : String) : Except String Json :=
  let file_path := "serviceContracts/" ++ service_name ++ ".json"
  let r1 := read_nested_json_section doc file_path ["components", "schemas"]
  let schema1 := attemptValue r1
  let error1 :=
    match r1 with
    | .ok _ => ""
    | .error e =>
      "Error reading serviceContracts/" ++ service_name ++
        ".json (components/schemas): " ++ e
  if truthy schema1 then .ok schema1
  else
    let r2 := read_nested_json_section doc file_path ["definitions"]
    let schema2 := attemptValue r2
    let error2 :=
      match r2 with
      | .ok _ => ""
      | .error e =>
        "Error reading serviceContracts/" ++ service_name ++
          ".json (definitions): " ++ e
    if truthy schema2 then .ok schema2
    else .error ("Errors: " ++ error1 ++ ", " ++ error2)

/- ---------------------------------------------------------------------
Prompt Assembler: the template of `generate_dto_prompt`
(rest_api_taf_helper.py lines 272-295), including a faithful model of
`json.dumps(schema_def, indent=2)`.
--------------------------------------------------------------------- -/

/-- Lowercase hex digit, as produced by `json.dumps` unicode escapes. -/
def hexDigit (n : Nat) : Char :=
  if n < 10 then Char.ofNat (48 + n) else Char.ofNat (87 + n)

/-- Four lowercase hex digits of a code unit. -/
def hex4 (n : Nat) : String :=
  String.mk [hexDigit (n / 4096 % 16), hexDigit (n / 256 % 16),
             hexDigit (n / 16 % 16), hexDigit (n % 16)]

/-- `json.dumps` escaping of one character (`ensure_ascii=True` default):
short escapes for the usual controls, printable ASCII verbatim, everything
else as one or two `\uXXXX` escapes. -/
def escapeJsonChar (c : Char) : String :=
  if c = '"' then "\\\""
  else if c = '\\' then "\\\\"
  else if c = '\n' then "\\n"
  else if c = '\t' then "\\t"
  else if c = '\r' then "\\r"
  else if c = '\x08' then "\\b"
  else if c = '\x0c' then "\\f"
  else if 32 ≤ c.toNat && c.toNat < 127 then String.singleton c
  else if c.toNat < 65536 then "\\u" ++ hex4 c.toNat
  else
    "\\u" ++ hex4 (55296 + (c.toNat - 65536) / 1024) ++
      "\\u" ++ hex4 (56320 + (c.toNat - 65536) % 1024)

/-- `json.dumps` of a string value. -/
def quoteJsonString (s : String) : String :=
  "\"" ++ String.join (s.data.map escapeJsonChar) ++ "\""

/-- `n` spaces. -/
def spacesN (n : Nat) : String := String.mk (List.replicate n ' ')

mutual
/-- `json.dumps(v, indent=2)` with the current indentation depth `ind`
(the call in `generate_dto_prompt` starts at depth 0). -/
def jsonDumps : Json → Nat → String
  | .null, _ => "null"
  | .bool b, _ => if b then "true" else "false"
  | .num n, _ => toString n
  | .str s, _ => quoteJsonString s
  | .arr [], _ => "[]"
  | .arr (x :: xs), ind =>
    "[\n" ++ spacesN (ind + 2) ++ jsonDumps x (ind + 2) ++
      jsonDumpsArrRest xs (ind + 2) ++ "\n" ++ spacesN ind ++ "]"
  | .obj [], _ => "\x7b\x7d"
  | .obj ((k, v) :: fs), ind =>
    "\x7b\n" ++ spacesN (ind + 2) ++ quoteJsonString k ++ ": " ++
      jsonDumps v (ind + 2) ++ jsonDumpsObjRest fs (ind + 2) ++
      "\n" ++ spacesN ind ++ "\x7d"

/-- Remaining array items, each preceded by `",\n"` and the indent. -/
def jsonDumpsArrRest : List Json → Nat → String
  | [], _ => ""
  | x :: xs, ind =>
    ",\n" ++ spacesN ind ++ jsonDumps x ind ++ jsonDumpsArrRest xs ind

/-- Remaining object items, each preceded by `",\n"` and the indent. -/
def jsonDumpsObjRest : List (String × Json) → Nat → String
  | [], _ => ""
  | (k, v) :: fs, ind =>
    ",\n" ++ spacesN ind ++ quoteJsonString k ++ ": " ++ jsonDumps v ind ++
      jsonDumpsObjRest fs ind
end

/-- The fixed text of the prompt template before the schema name. -/
def promptIntro : String :=
  "Generate a TypeScript enum or interface for the following schema:\n\n    Schema Name: "

/-- The fixed text between the schema name and the serialized schema:
blank line, the dash-bulleted guideline list (with the source\x27s
"shoud" typo preserved), then the Schema Definition fence opener. -/
def promptGuidelines : String :=
  "\n\n    Guidelines:\n\n    - Create a TypeScript enum or interface\n    - Generated enum or interface shoud be marked as \x27export\x27\n    - Use PascalCase for the class name\n    - Include proper type annotations\n    - Handle optional properties\n    - Add JSDoc comments if possible\n    - Ensure the class represents the schema\x27s structure accurately\n    - Such enums and classes will be used as DTOs in a REST API\n\n    Schema Definition:\n    ```json\n    "

/-- The fixed text after the serialized schema: fence close and the final
instruction line. -/
def promptClosing : String :=
  "\n    ```\n    Generated TypeScript Code:"

/-- The prompt f-string of `generate_dto_prompt`: a pure substitution
template over the schema name and `json.dumps(schema_def, indent=2)`. -/
def buildPrompt (schema_name : String) (schema_def : Json) : String :=
  promptIntro ++ schema_name ++ promptGuidelines ++
    jsonDumps schema_def 0 ++ promptClosing

/- ---------------------------------------------------------------------
Output Validator/Repairer: the post-generation checks of
`generate_dto_prompt` (rest_api_taf_helper.py lines 299-313).  `ctx.warn`
calls are modelled as an ordered warning list returned to the caller.
--------------------------------------------------------------------- -/

def emptyWarning (schema_name : String) : String :=
  "Empty TypeScript content generated for " ++ schema_name

def missingExportWarning (schema_name : String) : String :=
  "Generated content for " ++ schema_name ++ " may be missing export keyword"

def suspectTypeWarning (schema_name : String) : String :=
  "Generated content for " ++ schema_name ++
    " doesn\x27t seem to be a TypeScript type definition"

def missingBracesWarning (schema_name : String) : String :=
  "Generated interface for " ++ schema_name ++ " appears to be missing braces"

/-- The validation/repair pass over the raw generated text: empty text is
replaced by a commented placeholder and returned at once; otherwise the
elif chain prepends an export marker or a suspicion comment, and the
independent final check appends `" \x7b\x7d"` to the right-stripped text
when it mentions `interface` but holds no open brace. -/
def normalizeGeneratedOutput (rawText schemaName : String) : String × List String :=
  if pyStrip rawText = "" then
    ("// Warning: Empty content for " ++ schemaName ++ "\nexport interface " ++
       schemaName ++ " \x7b\x7d", [emptyWarning schemaName])
  else
    let step :=
      if !hasSubstr rawText "export" then
        ("export " ++ rawText, [missingExportWarning schemaName])
      else if !(hasSubstr rawText "interface" || hasSubstr rawText "enum" ||
                hasSubstr rawText "type" || hasSubstr rawText "class") then
        ("// Warning: This might not be valid TypeScript\n" ++ rawText,
          [suspectTypeWarning schemaName])
      else (rawText, [])
    if hasSubstr step.1 "interface" && !hasSubstr step.1 "\x7b" then
      (pyRstrip step.1 ++ " \x7b\x7d", step.2 ++ [missingBracesWarning schemaName])
    else step

/-- The whole of `generate_dto_prompt` for one schema, with the LLM
backend abstracted as the oracle `gen : prompt text -> generated text`. -/
def generate_dto_prompt (gen : String → String) (schema_name : String)
    (schema_def : Json) : String × List String :=
  normalizeGeneratedOutput (gen (buildPrompt schema_name schema_def)) schema_name

/- ---------------------------------------------------------------------
Session model: the `AppContext` dataclass and the MCP tools
`connect_to_repo`, `read_swagger_json`, `generate_typescript_dtos` and
`prepare_dto_for_push` of rest_api_taf_helper.py.
--------------------------------------------------------------------- -/

/-- The parts of a PyGithub `Repository` object read by the tools. -/
structure Repo where
  owner : String
  name : String
  default_branch : String
deriving DecidableEq, Repr

/-- The `generated_typescript_dto` dict stored into the context. -/
structure GeneratedDto where
  content : String
  path : String
deriving DecidableEq, Repr

/-- `AppContext`: every field starts out `None`. -/
structure Session where
  repo : Option Repo
  swagger_json : Option Json
  service_name : Option String
  generated_typescript_dto : Option GeneratedDto

/-- The freshly initialised context of `app_lifespan`. -/
def initSession : Session := ⟨none, none, none, none⟩

/-- Python membership `key in v`: key lookup on a dict, element equality
on a list, substring test on a string, `TypeError` on any other value. -/
def pyIn (key : String) : Json → Except Unit Bool
  | .obj fields => .ok (fields.any (fun kv => kv.1 == key))
  | .arr items =>
    .ok (items.any (fun it => match it with | .str t => t == key | _ => false))
  | .str s => .ok (hasSubstr s key)
  | _ => .error ()

/-- The contract check `'swagger' in swagger_json or 'openapi' in
swagger_json`, with Python short-circuiting. -/
def swaggerValid (j : Json) : Except Unit Bool :=
  match pyIn "swagger" j with
  | .error e => .error e
  | .ok true => .ok true
  | .ok false => pyIn "openapi" j

/-- Whether a document carries `key` as a top-level dict key (the notion
the spec sentence speaks about; non-objects have no keys). -/
def hasTopKey (j : Json) (key : String) : Bool :=
  match j with
  | .obj fields => (lookupKey fields key).isSome
  | _ => false

/-- Outcome of the external fetch/decode/parse layers inside
`read_swagger_json`, one constructor per early-return of the source. -/
inductive FetchOutcome where
  | couldNotRetrieve
  | isDirectory
  | decodeFailed
  | invalidJson
  | parsed (doc : Json)

/-- `connect_to_repo`: the GitHub lookup is the oracle `outcome`. -/
def connect_to_repo (s : Session) (owner repo_name : String)
    (outcome : Except String Repo) : Session × String :=
  match outcome with
  | .ok r => ({ s with repo := some r }, "Connected to " ++ owner ++ "/" ++ repo_name)
  | .error e => (s, "Error: " ++ e)

/-- Stand-in for a Python runtime exception text (e.g. a `TypeError` from
a membership test or subscript on a non-dict stored swagger value); its
exact wording is produced by the Python runtime, not by this code, and no
claim depends on it. -/
def pyRuntimeMsg : String := "runtime error while locating schemas"

/-- `read_swagger_json`: guard on the connected repo, build the full file
path, run the external fetch (the `fo` oracle), validate the contract
marker keys, and on success store document and service name. -/
def read_swagger_json (s : Session) (folder_path service_name : String)
    (fo : FetchOutcome) : Session × String :=
  match s.repo with
  | none => (s, "Error: No repository connected. Use connect_to_repo first.")
  | some _ =>
    let full_file_path := pyRstripSlash folder_path ++ "/" ++ service_name ++ ".json"
    match fo with
    | .couldNotRetrieve => (s, "Error: Could not retrieve file: " ++ full_file_path)
    | .isDirectory => (s, "Error: " ++ full_file_path ++ " is a directory, not a file")
    | .decodeFailed => (s, "Error: Unable to decode file content at " ++ full_file_path)
    | .invalidJson => (s, "Error: Invalid JSON in file " ++ full_file_path)
    | .parsed doc =>
      match swaggerValid doc with
      | .error _ => (s, "Error: Unexpected error - " ++ pyRuntimeMsg)
      | .ok true =>
        ({ s with swagger_json := some doc, service_name := some service_name },
          "Swagger JSON is successfully found and stored to context")
      | .ok false =>
        (s, "Error: Invalid Swagger/OpenAPI definition at " ++ full_file_path)

inductive SchemaErr where
  | noSchemas
  | pyError

/-- `schemas.items()`: only a dict offers `.items`. -/
def itemsOf : Json → Except SchemaErr (List (String × Json))
  | .obj fields => .ok fields
  | _ => .error .pyError

/-- The `elif 'definitions' in swagger_json:` arm. -/
def tryDefinitions (sw : Json) : Except SchemaErr (List (String × Json)) :=
  match pyIn "definitions" sw with
  | .error _ => .error .pyError
  | .ok false => .error .noSchemas
  | .ok true =>
    match sw with
    | .obj fields =>
      match lookupKey fields "definitions" with
      | some defs => itemsOf defs
      | none => .error .pyError
    | _ => .error .pyError

/-- The schema-location logic of `generate_typescript_dtos` (lines
160-167): `components.schemas` first, then `definitions`, else the
no-schemas early return; duck-typing failures become caught exceptions. -/
def selectSchemas (sw : Json) : Except SchemaErr (List (String × Json)) :=
  match pyIn "components" sw with
  | .error _ => .error .pyError
  | .ok false => tryDefinitions sw
  | .ok true =>
    match sw with
    | .obj fields =>
      match lookupKey fields "components" with
      | none => .error .pyError
      | some comps =>
        match pyIn "schemas" comps with
        | .error _ => .error .pyError
        | .ok false => tryDefinitions sw
        | .ok true =>
          match comps with
          | .obj cfs =>
            match lookupKey cfs "schemas" with
            | some schemas => itemsOf schemas
            | none => .error .pyError
          | _ => .error .pyError
    | _ => .error .pyError

/-- `generate_typescript_dtos`: guard on stored swagger and service name
(Python truthiness), locate the schema mapping, generate one DTO per
schema through `generate_dto_prompt`, join them into one module and store
it with its derived path. -/
def generate_typescript_dtos (s : Session) (gen : String → String) : Session × String :=
  match s.swagger_json with
  | none => (s, "Error: No swagger JSON read. Use read_swagger_json first.")
  | some sw =>
    if !truthy sw then (s, "Error: No swagger JSON read. Use read_swagger_json first.")
    else
      match s.service_name with
      | none => (s, "Error: No service name stored for flow. Use read_swagger_json first.")
      | some svc =>
        if svc = "" then
          (s, "Error: No service name stored for flow. Use read_swagger_json first.")
        else
          match selectSchemas sw with
          | .error .noSchemas =>
            (s, "Error: No schemas found in the Swagger/OpenAPI specification")
          | .error .pyError =>
            (s, "Error generating TypeScript DTOs: " ++ pyRuntimeMsg)
          | .ok schemaItems =>
            let dtos := schemaItems.map (fun kv => (generate_dto_prompt gen kv.1 kv.2).1)
            let moduleText := "// Generated TypeScript DTOs for " ++ svc ++ "\n\n" ++
              String.intercalate "\n" dtos
            let file_path := "/src/models/" ++ svc ++ ".model.ts"
            ({ s with generated_typescript_dto := some ⟨moduleText, file_path⟩ },
              "Successfully generated TypeScript DTO module for further actions: " ++ file_path)

/-- The flat record handed to the push step, or the error dict. -/
inductive PushPrep where
  | failed (msg : String)
  | ready (repo_full_name : String) (service_name : Option String)
      (file_path file_content default_branch : String)

/-- `prepare_dto_for_push`: guards on repo and generated DTO, then reads
`service_name` from the context without any guard of its own. -/
def prepare_dto_for_push (s : Session) : PushPrep :=
  match s.repo with
  | none => .failed "No repository connected"
  | some r =>
    match s.generated_typescript_dto with
    | none => .failed "No generated DTO found"
    | some d =>
      .ready (r.owner ++ "/" ++ r.name) s.service_name d.path d.content r.default_branch

/-- Session states the tool surface can actually put the context in,
starting from the freshly initialised context, with arbitrary inputs and
arbitrary external-collaborator outcomes at every step (the read-only
tools `inspect_context` and `prepare_dto_for_push` do not write). -/
inductive Reachable : Session → Prop where
  | init : Reachable initSession
  | connect (s : Session) (owner repo_name : String) (outcome : Except String Repo) :
      Reachable s → Reachable (connect_to_repo s owner repo_name outcome).1
  | readSwagger (s : Session) (folder_path service_name : String) (fo : FetchOutcome) :
      Reachable s → Reachable (read_swagger_json s folder_path service_name fo).1
  | generate (s : Session) (gen : String → String) :
      Reachable s → Reachable (generate_typescript_dtos s gen).1

/- ---------------------------------------------------------------------
Spec-side definitions (written from the spec wording, for comparison
with the source-derived functions above).
--------------------------------------------------------------------- -/

/-- Modelled from the spec: "the unique value reached by following the
keys of P in order from the root" — one dict lookup per key, in order. -/
def Follows : Json → List String → Json → Prop
  | doc, [], w => w = doc
  | doc, key :: rest, w =>
    ∃ fields v, doc = Json.obj fields ∧ lookupKey fields key = some v ∧ Follows v rest w

/-- Truthiness of a whole schema-lookup attempt: a read that raised is
falsy (the variable keeps its initial `""`), a read that returned an
empty/falsy section is falsy too. -/
def attemptTruthy : Except String Json → Bool
  | .ok v => truthy v
  | .error _ => false

/-- Python truthiness of an optional stored JSON value. -/
def optTruthy : Option Json → Bool
  | none => false
  | some j => truthy j

/-- Python truthiness of an optional stored string. -/
def optStrTruthy : Option String → Bool
  | none => false
  | some s => s != ""

/- ---------------------------------------------------------------------
Supporting lemmas: substrings, stripping, attempts.
--------------------------------------------------------------------- -/

theorem leadsWith_append (pat l r : List Char) (h : leadsWith pat l = true) :
    leadsWith pat (l ++ r) = true := by
  induction pat generalizing l with
  | nil => simp [leadsWith]
  | cons a as ih =>
    cases l with
    | nil => simp [leadsWith] at h
    | cons b bs =>
      simp only [leadsWith, Bool.and_eq_true, decide_eq_true_eq] at h
      simp only [List.cons_append, leadsWith, Bool.and_eq_true, decide_eq_true_eq]
      exact ⟨h.1, ih bs h.2⟩

theorem occursIn_nil_pat (l : List Char) : occursIn [] l = true := by
  cases l <;> simp [occursIn, leadsWith]

theorem occursIn_append_right (pat l r : List Char) (h : occursIn pat r = true) :
    occursIn pat (l ++ r) = true := by
  induction l with
  | nil => simpa using h
  | cons c t ih =>
    simp only [List.cons_append, occursIn, Bool.or_eq_true]
    exact Or.inr ih

theorem occursIn_append_left (pat l r : List Char) (h : occursIn pat l = true) :
    occursIn pat (l ++ r) = true := by
  induction l with
  | nil =>
    cases pat with
    | nil => simpa using occursIn_nil_pat r
    | cons a as => simp [occursIn, leadsWith] at h
  | cons c t ih =>
    simp only [occursIn, Bool.or_eq_true] at h
    simp only [List.cons_append, occursIn, Bool.or_eq_true]
    cases h with
    | inl h1 =>
      left
      have := leadsWith_append pat (c :: t) r h1
      simpa using this
    | inr h2 => exact Or.inr (ih h2)

theorem mem_of_leadsWith (pat l : List Char) (c : Char)
    (h : leadsWith pat l = true) (hc : c ∈ pat) : c ∈ l := by
  induction pat generalizing l with
  | nil => simp at hc
  | cons a as ih =>
    cases l with
    | nil => simp [leadsWith] at h
    | cons b bs =>
      simp only [leadsWith, Bool.and_eq_true, decide_eq_true_eq] at h
      rcases List.mem_cons.mp hc with h1 | h1
      · exact h1 ▸ h.1 ▸ List.mem_cons_self b bs
      · exact List.mem_cons_of_mem b (ih bs h.2 h1)

theorem mem_of_occursIn (pat l : List Char) (c : Char)
    (h : occursIn pat l = true) (hc : c ∈ pat) : c ∈ l := by
  induction l with
  | nil =>
    have : c ∈ ([] : List Char) := mem_of_leadsWith pat [] c h hc
    simp at this
  | cons d t ih =>
    simp only [occursIn, Bool.or_eq_true] at h
    cases h with
    | inl h1 => exact mem_of_leadsWith pat (d :: t) c h1 hc
    | inr h2 => exact List.mem_cons_of_mem d (ih h2)

theorem occursIn_singleton (c : Char) (l : List Char) :
    occursIn [c] l = true ↔ c ∈ l := by
  induction l with
  | nil => simp [occursIn, leadsWith]
  | cons d t ih =>
    simp only [occursIn, leadsWith, Bool.and_eq_true, decide_eq_true_eq,
      Bool.or_eq_true, List.mem_cons, ih]
    constructor
    · rintro (⟨h, -⟩ | h)
      · exact Or.inl h
      · exact Or.inr h
    · rintro (h | h)
      · exact Or.inl ⟨h, trivial⟩
      · exact Or.inr h

theorem strData_append (a b : String) : (a ++ b).data = a.data ++ b.data := rfl

theorem hasSubstr_append_l (a b pat : String) (h : hasSubstr a pat = true) :
    hasSubstr (a ++ b) pat = true := by
  unfold hasSubstr at h ⊢
  rw [strData_append]
  exact occursIn_append_left _ _ _ h

theorem hasSubstr_append_r (a b pat : String) (h : hasSubstr b pat = true) :
    hasSubstr (a ++ b) pat = true := by
  unfold hasSubstr at h ⊢
  rw [strData_append]
  exact occursIn_append_right _ _ _ h

theorem mem_dropWhile_of_not (p : Char → Bool) (l : List Char) (c : Char)
    (hm : c ∈ l) (hp : p c = false) : c ∈ l.dropWhile p := by
  induction l with
  | nil => simp at hm
  | cons a t ih =>
    rcases List.mem_cons.mp hm with h1 | h1
    · subst h1
      simp [List.dropWhile, hp]
    · cases hpa : p a with
      | true => simpa [List.dropWhile, hpa] using ih h1
      | false => simp [List.dropWhile, hpa, List.mem_cons, h1]

theorem pyStrip_ne_empty (s : String) (c : Char)
    (hm : c ∈ s.data) (hp : pyIsSpace c = false) : pyStrip s ≠ "" := by
  have h1 : c ∈ s.data.dropWhile pyIsSpace := mem_dropWhile_of_not _ _ _ hm hp
  have h2 : c ∈ dropRightWhileL pyIsSpace (s.data.dropWhile pyIsSpace) := by
    unfold dropRightWhileL
    rw [List.mem_reverse]
    exact mem_dropWhile_of_not _ _ _ (List.mem_reverse.mpr h1) hp
  intro h
  have hd : dropRightWhileL pyIsSpace (s.data.dropWhile pyIsSpace) = [] := by
    have := congrArg String.data h
    simpa [pyStrip] using this
  rw [hd] at h2
  simp at h2

theorem pyStrip_ne_empty_of_interface (s : String)
    (h : hasSubstr s "interface" = true) : pyStrip s ≠ "" := by
  have hi : 'i' ∈ s.data := mem_of_occursIn _ _ 'i' h (by decide)
  exact pyStrip_ne_empty s 'i' hi (by decide)

theorem attemptTruthy_eq (r : Except String Json) :
    attemptTruthy r = truthy (attemptValue r) := by
  cases r <;> rfl

theorem isNull_iff (v : Json) : v.isNull = true ↔ v = Json.null := by
  cases v <;> simp [Json.isNull]

theorem readSection_append (P Q : List String) (doc : Json) :
    readSection doc (P ++ Q) =
      Except.bind (readSection doc P) (fun v => readSection v Q) := by
  induction P generalizing doc with
  | nil => simp [readSection, Except.bind]
  | cons key rest ih =>
    cases doc with
    | obj fields =>
      simp only [List.cons_append, readSection]
      cases hl : lookupKey fields key with
      | none => simp [Except.bind]
      | some v =>
        cases hn : v.isNull with
        | true => simp [hn, Except.bind]
        | false => simp [hn, ih]
    | null => simp [readSection, Except.bind]
    | bool b => simp [readSection, Except.bind]
    | num n => simp [readSection, Except.bind]
    | str s => simp [readSection, Except.bind]
    | arr items => simp [readSection, Except.bind]

theorem readSection_ok_follows (P : List String) (doc v : Json)
    (h : readSection doc P = .ok v) : Follows doc P v := by
  induction P generalizing doc with
  | nil =>
    simp only [readSection, Except.ok.injEq] at h
    simpa [Follows] using h.symm
  | cons key rest ih =>
    cases doc with
    | obj fields =>
      simp only [readSection] at h
      cases hl : lookupKey fields key with
      | none => rw [hl] at h; simp at h
      | some w =>
        rw [hl] at h
        cases hn : w.isNull with
        | true => simp [hn] at h
        | false =>
          simp only [hn, Bool.false_eq_true, if_false] at h
          exact ⟨fields, w, rfl, hl, ih w h⟩
    | null => simp [readSection] at h
    | bool b => simp [readSection] at h
    | num n => simp [readSection] at h
    | str s => simp [readSection] at h
    | arr items => simp [readSection] at h

theorem follows_unique (P : List String) (doc w₁ w₂ : Json)
    (h₁ : Follows doc P w₁) (h₂ : Follows doc P w₂) : w₁ = w₂ := by
  induction P generalizing doc with
  | nil =>
    simp only [Follows] at h₁ h₂
    rw [h₁, h₂]
  | cons key rest ih =>
    obtain ⟨f₁, v₁, hd₁, hl₁, hf₁⟩ := h₁
    obtain ⟨f₂, v₂, hd₂, hl₂, hf₂⟩ := h₂
    subst hd₁
    have hf : f₁ = f₂ := by
      have := hd₂
      simpa [Json.obj.injEq] using this
    subst hf
    have hv : v₁ = v₂ := by
      rw [hl₁] at hl₂
      simpa using hl₂
    subst hv
    exact ih v₁ hf₁ hf₂

theorem readSection_notFound_iff (doc : Json) (P : List String) (k : String) :
    readSection doc P = .error (.sectionNotFound k) ↔
      ∃ P₁ P₂ fields, P = P₁ ++ k :: P₂ ∧
        readSection doc P₁ = .ok (.obj fields) ∧
        (lookupKey fields k = none ∨ lookupKey fields k = some Json.null) := by
  constructor
  · intro h
    induction P generalizing doc with
    | nil => simp [readSection] at h
    | cons key rest ih =>
      cases doc with
      | obj fields =>
        simp only [readSection] at h
        cases hl : lookupKey fields key with
        | none =>
          rw [hl] at h
          simp only [Except.error.injEq, NavErr.sectionNotFound.injEq] at h
          subst h
          exact ⟨[], rest, fields, rfl, rfl, Or.inl hl⟩
        | some w =>
          rw [hl] at h
          cases hn : w.isNull with
          | true =>
            simp only [hn, if_true, Except.error.injEq, NavErr.sectionNotFound.injEq] at h
            subst h
            have hw : w = Json.null := (isNull_iff w).mp hn
            exact ⟨[], rest, fields, rfl, rfl, Or.inr (hw ▸ hl)⟩
          | false =>
            simp only [hn, Bool.false_eq_true, if_false] at h
            obtain ⟨P₁, P₂, fields', hP, hok, hlk⟩ := ih w h
            refine ⟨key :: P₁, P₂, fields', by simp [hP], ?_, hlk⟩
            simp [readSection, hl, hn, hok]
      | null => simp [readSection] at h
      | bool b => simp [readSection] at h
      | num n => simp [readSection] at h
      | str s => simp [readSection] at h
      | arr items => simp [readSection] at h
  · rintro ⟨P₁, P₂, fields, hP, hok, hlk⟩
    subst hP
    rw [readSection_append, hok]
    cases hlk with
    | inl h => simp [Except.bind, readSection, h]
    | inr h => simp [Except.bind, readSection, h, Json.isNull]

theorem readSection_notNavigable_iff (doc : Json) (P : List String) (k : String) :
    readSection doc P = .error (.notNavigable k) ↔
      ∃ P₁ P₂ v, P = P₁ ++ k :: P₂ ∧ readSection doc P₁ = .ok v ∧
        ∀ fields, v ≠ Json.obj fields := by
  constructor
  · intro h
    induction P generalizing doc with
    | nil => simp [readSection] at h
    | cons key rest ih =>
      cases doc with
      | obj fields =>
        simp only [readSection] at h
        cases hl : lookupKey fields key with
        | none => rw [hl] at h; simp at h
        | some w =>
          rw [hl] at h
          cases hn : w.isNull with
          | true => simp [hn] at h
          | false =>
            simp only [hn, Bool.false_eq_true, if_false] at h
            obtain ⟨P₁, P₂, v, hP, hok, hv⟩ := ih w h
            refine ⟨key :: P₁, P₂, v, by simp [hP], ?_, hv⟩
            simp [readSection, hl, hn, hok]
      | null =>
        simp only [readSection, Except.error.injEq, NavErr.notNavigable.injEq] at h
        subst h
        exact ⟨[], rest, .null, rfl, rfl, fun fields hh => by simp at hh⟩
      | bool b =>
        simp only [readSection, Except.error.injEq, NavErr.notNavigable.injEq] at h
        subst h
        exact ⟨[], rest, .bool b, rfl, rfl, fun fields hh => by simp at hh⟩
      | num n =>
        simp only [readSection, Except.error.injEq, NavErr.notNavigable.injEq] at h
        subst h
        exact ⟨[], rest, .num n, rfl, rfl, fun fields hh => by simp at hh⟩
      | str s =>
        simp only [readSection, Except.error.injEq, NavErr.notNavigable.injEq] at h
        subst h
        exact ⟨[], rest, .str s, rfl, rfl, fun fields hh => by simp at hh⟩
      | arr items =>
        simp only [readSection, Except.error.injEq, NavErr.notNavigable.injEq] at h
        subst h
        exact ⟨[], rest, .arr items, rfl, rfl, fun fields hh => by simp at hh⟩
  · rintro ⟨P₁, P₂, v, hP, hok, hv⟩
    subst hP
    rw [readSection_append, hok]
    cases v with
    | obj fields => exact absurd rfl (hv fields)
    | null => simp [Except.bind, readSection]
    | bool b => simp [Except.bind, readSection]
    | num n => simp [Except.bind, readSection]
    | str s => simp [Except.bind, readSection]
    | arr items => simp [Except.bind, readSection]

theorem attemptValue_ok (v : Json) : attemptValue (.ok v) = v := rfl

theorem hasSubstr_append_eq_false (a b pat : String) (c : Char) (hp : pat.data = [c])
    (ha : hasSubstr a pat = false) (hb : hasSubstr b pat = false) :
    hasSubstr (a ++ b) pat = false := by
  cases h : hasSubstr (a ++ b) pat with
  | false => rfl
  | true =>
    exfalso
    have hm : c ∈ (a ++ b).data := by
      unfold hasSubstr at h
      rw [hp] at h
      exact (occursIn_singleton c _).mp h
    rw [strData_append] at hm
    unfold hasSubstr at ha hb
    rw [hp] at ha hb
    rcases List.mem_append.mp hm with hin | hin
    · have hocc : occursIn [c] a.data = true := (occursIn_singleton c _).mpr hin
      rw [ha] at hocc
      exact Bool.noConfusion hocc
    · have hocc : occursIn [c] b.data = true := (occursIn_singleton c _).mpr hin
      rw [hb] at hocc
      exact Bool.noConfusion hocc

/- ---------------------------------------------------------------------
Claim theorems.
--------------------------------------------------------------------- -/

/-- Claim C1, counterexample: in the document with `"a"` bound to the
empty string, the value at the requested key is empty, yet `readSection`
succeeds and returns that empty value instead of failing with a
"section not found at key" diagnostic — refuting the claim that
navigation fails "whenever a key is absent or its value is null/empty". -/
theorem readSection_empty_value_counterexample :
    readSection (Json.obj [("a", Json.str "")]) ["a"] = .ok (Json.str "") := rfl

/-- Claim C1 (amended: a step fails when the key is absent or its value
is JSON null; an empty — but non-null — value is navigated into and can
be returned).  `readSection` either returns the unique value reached by
following the keys of the path in order, or fails with a diagnostic
naming the exact first key at which navigation broke: the
section-not-found error names key `k` exactly when navigation succeeds
strictly before `k` and `k` is then absent or bound to null in the
reached mapping, and the non-navigable error names `k` exactly when the
value reached just before `k` is not a keyed mapping. -/
theorem readSection_spec (doc : Json) (P : List String) :
    (∀ v, readSection doc P = .ok v →
        Follows doc P v ∧ ∀ w, Follows doc P w → w = v) ∧
    (∀ k, readSection doc P = .error (.sectionNotFound k) ↔
      ∃ P₁ P₂ fields, P = P₁ ++ k :: P₂ ∧
        readSection doc P₁ = .ok (.obj fields) ∧
        (lookupKey fields k = none ∨ lookupKey fields k = some Json.null)) ∧
    (∀ k, readSection doc P = .error (.notNavigable k) ↔
      ∃ P₁ P₂ v, P = P₁ ++ k :: P₂ ∧ readSection doc P₁ = .ok v ∧
        ∀ fields, v ≠ Json.obj fields) :=
  ⟨fun v h => ⟨readSection_ok_follows P doc v h,
     fun w hw => follows_unique P doc w v hw (readSection_ok_follows P doc v h)⟩,
   fun k => readSection_notFound_iff doc P k,
   fun k => readSection_notNavigable_iff doc P k⟩

/-- Witness for the C1 theorem at a concrete document and path. -/
theorem readSection_spec_witness :
    Follows (Json.obj [("a", Json.num 1)]) ["a"] (Json.num 1) :=
  ((readSection_spec (Json.obj [("a", Json.num 1)]) ["a"]).1 (Json.num 1) rfl).1

/-- Claim C4, counterexample: on empty generated text the final text is
not the bare placeholder `export interface Foo \x7b\x7d` — the source
returns the placeholder with a `// Warning: ...` comment line in front. -/
theorem normalize_empty_counterexample :
    (normalizeGeneratedOutput "" "Foo").1 ≠ "export interface Foo \x7b\x7d" := by
  decide

/-- Claim C4 (amended: the final text is the placeholder preceded by a
warning comment line): whenever the raw text strips to empty, the
validator emits exactly the one empty-content warning and immediately
returns `// Warning: Empty content for S` followed by the placeholder
`export interface S \x7b\x7d`, with no further checks applied. -/
theorem normalize_empty_replacement (rawText schemaName : String)
    (h : pyStrip rawText = "") :
    normalizeGeneratedOutput rawText schemaName =
      ("// Warning: Empty content for " ++ schemaName ++ "\nexport interface " ++
         schemaName ++ " \x7b\x7d", [emptyWarning schemaName]) := by
  simp [normalizeGeneratedOutput, h]

/-- Witness for the C4 theorem at the claim's own concrete input. -/
theorem normalize_empty_replacement_witness :
    normalizeGeneratedOutput "" "Foo" =
      ("// Warning: Empty content for Foo\nexport interface Foo \x7b\x7d",
       [emptyWarning "Foo"]) :=
  normalize_empty_replacement "" "Foo" rfl

/-- Claim C5: the prompt builder is a pure substitution template —
equal inputs yield byte-identical prompt text (in the source the
builder's inputs are the schema name and the schema definition). -/
theorem buildPrompt_deterministic (n₁ n₂ : String) (d₁ d₂ : Json)
    (hn : n₁ = n₂) (hd : d₁ = d₂) : buildPrompt n₁ d₁ = buildPrompt n₂ d₂ := by
  rw [hn, hd]

/-- Witness for the C5 theorem at a concrete schema. -/
theorem buildPrompt_deterministic_witness :
    buildPrompt "Foo" (Json.obj []) = buildPrompt "Foo" (Json.obj []) :=
  buildPrompt_deterministic "Foo" "Foo" (Json.obj []) (Json.obj []) rfl rfl

/-- Claim C6, counterexample: the built prompt embeds no exemplar
section at all — in particular not the fixed exemplar service identifier
`wizardWorld` — and its rule list is dash-bulleted, not numbered. -/
theorem buildPrompt_no_exemplar_counterexample :
    hasSubstr (buildPrompt "Foo" (Json.obj [])) "wizardWorld" = false ∧
    hasSubstr (buildPrompt "Foo" (Json.obj [])) "1." = false ∧
    hasSubstr (buildPrompt "Foo" (Json.obj [])) "    - " = true :=
  ⟨by decide, by decide, by decide⟩

/-- Claim C6 (amended: the prompt has no exemplar sections; it consists,
in fixed order, of the task framing, the target schema name, the fixed
dash-bulleted guideline list, the target schema serialized as indent-2
JSON, and the closing instruction). -/
theorem buildPrompt_sections (n : String) (d : Json) :
    buildPrompt n d =
      promptIntro ++ n ++ promptGuidelines ++ jsonDumps d 0 ++ promptClosing ∧
    hasSubstr promptIntro "Generate a TypeScript enum or interface" = true ∧
    hasSubstr promptGuidelines "Guidelines:" = true ∧
    hasSubstr promptGuidelines "Schema Definition:" = true ∧
    hasSubstr promptClosing "Generated TypeScript Code:" = true :=
  ⟨rfl, by decide, by decide, by decide, by decide⟩

/-- Claim C7, counterexample: `"interface Foo"` is non-empty and lacks an
export marker, yet normalisation emits TWO warnings and also appends a
brace pair — not "exactly one warning ... leaving the rest of the text
unchanged". -/
theorem normalize_missing_export_counterexample :
    normalizeGeneratedOutput "interface Foo" "Foo" =
      ("export interface Foo \x7b\x7d",
       [missingExportWarning "Foo", missingBracesWarning "Foo"]) ∧
    (normalizeGeneratedOutput "interface Foo" "Foo").2.length ≠ 1 :=
  ⟨rfl, by decide⟩

/-- Claim C7 (amended: for raw text that is non-blank and lacks an export
marker, the missing-export warning fires and an export marker is
prepended; when the resulting text then triggers the independent brace
check — it mentions `interface` and has no open brace — the brace repair
and its warning additionally apply, otherwise the export-prepended text
is returned unchanged with exactly the one warning). -/
theorem normalize_missing_export (raw s : String)
    (h0 : pyStrip raw ≠ "")
    (h1 : hasSubstr raw "export" = false) :
    (hasSubstr ("export " ++ raw) "interface" = true ∧
        hasSubstr ("export " ++ raw) "\x7b" = false →
      normalizeGeneratedOutput raw s =
        (pyRstrip ("export " ++ raw) ++ " \x7b\x7d",
         [missingExportWarning s, missingBracesWarning s])) ∧
    (¬(hasSubstr ("export " ++ raw) "interface" = true ∧
        hasSubstr ("export " ++ raw) "\x7b" = false) →
      normalizeGeneratedOutput raw s = ("export " ++ raw, [missingExportWarning s])) := by
  constructor
  · rintro ⟨hi, hb⟩
    simp [normalizeGeneratedOutput, h0, h1, hi, hb]
  · intro hni
    have hcond : (hasSubstr ("export " ++ raw) "interface" &&
        !hasSubstr ("export " ++ raw) "\x7b") = false := by
      cases hI : hasSubstr ("export " ++ raw) "interface" with
      | false => simp
      | true =>
        cases hB : hasSubstr ("export " ++ raw) "\x7b" with
        | true => simp
        | false => exact absurd ⟨hI, hB⟩ hni
    simp only [normalizeGeneratedOutput, h0, if_neg, h1]
    simp [h0, h1, hcond]

/-- Witness for the C7 theorem at the claim's concrete input (which has
braces, so only the export repair fires). -/
theorem normalize_missing_export_witness :
    normalizeGeneratedOutput "interface Foo \x7b id: string; \x7d" "Foo" =
      ("export interface Foo \x7b id: string; \x7d", [missingExportWarning "Foo"]) :=
  (normalize_missing_export "interface Foo \x7b id: string; \x7d" "Foo"
      (by decide) (by decide)).2 (by decide)

/-- Claim C8: whenever the raw text mentions `interface` but has no open
brace, the missing-braces warning fires (last) and a minimal empty brace
pair is appended to the right-stripped current text; on the claim's
concrete input `"export interface Foo"` the result is the text with the
brace pair appended and exactly the one missing-braces warning, the
export-marker check passing silently. -/
theorem normalize_missing_braces (raw s : String)
    (h1 : hasSubstr raw "interface" = true)
    (h2 : hasSubstr raw "\x7b" = false) :
    (∃ pre warns, normalizeGeneratedOutput raw s =
        (pyRstrip pre ++ " \x7b\x7d", warns ++ [missingBracesWarning s])) ∧
    normalizeGeneratedOutput "export interface Foo" "Foo" =
      ("export interface Foo \x7b\x7d", [missingBracesWarning "Foo"]) ∧
    hasSubstr "export interface Foo" "export" = true := by
  refine ⟨?_, rfl, rfl⟩
  have h0 : pyStrip raw ≠ "" := pyStrip_ne_empty_of_interface raw h1
  by_cases he : hasSubstr raw "export" = true
  · refine ⟨raw, [], ?_⟩
    simp [normalizeGeneratedOutput, h0, he, h1, h2]
  · have he' : hasSubstr raw "export" = false := by
      cases h : hasSubstr raw "export" with
      | false => rfl
      | true => exact absurd h he
    have hi : hasSubstr ("export " ++ raw) "interface" = true :=
      hasSubstr_append_r _ _ _ h1
    have hb : hasSubstr ("export " ++ raw) "\x7b" = false :=
      hasSubstr_append_eq_false "export " raw "\x7b" '\x7b' rfl (by decide) h2
    refine ⟨"export " ++ raw, [missingExportWarning s], ?_⟩
    simp [normalizeGeneratedOutput, h0, he', hi, hb]

/-- Witness for the C8 theorem at the claim's own concrete input. -/
theorem normalize_missing_braces_witness :
    normalizeGeneratedOutput "export interface Foo" "Foo" =
      ("export interface Foo \x7b\x7d", [missingBracesWarning "Foo"]) :=
  (normalize_missing_braces "export interface Foo" "Foo"
      (by decide) (by decide)).2.1

/-- Claim C2, counterexample: the document with only `"definitions"`
present — bound to an empty mapping — contains only the Swagger-2.0
shape, yet the resolver raises the aggregated error instead of returning
the value under `definitions`. -/
theorem get_service_schemas_empty_definitions_counterexample :
    get_service_schemas (Json.obj [("definitions", Json.obj [])]) "svc" =
      .error ("Errors: Error reading serviceContracts/svc.json (components/schemas): An error occurred: Section \x27components\x27 not found. section path [\x27components\x27, \x27schemas\x27], file path serviceContracts/svc.json. section path [\x27components\x27, \x27schemas\x27], file path serviceContracts/svc.json, ") := rfl

/-- Claim C2 (amended: the value under `definitions` must itself be
non-empty/truthy): whenever the `components.schemas` attempt is not
truthy — the read raised, or it returned an empty/falsy value — and the
`definitions` read succeeds with a truthy value, the resolver returns
exactly that value. -/
theorem get_service_schemas_definitions_fallback (doc : Json) (service_name : String)
    (v : Json)
    (h1 : attemptTruthy (read_nested_json_section doc
        ("serviceContracts/" ++ service_name ++ ".json")
        ["components", "schemas"]) = false)
    (h2 : read_nested_json_section doc
        ("serviceContracts/" ++ service_name ++ ".json") ["definitions"] = .ok v)
    (h3 : truthy v = true) :
    get_service_schemas doc service_name = .ok v := by
  have h1' : truthy (attemptValue (read_nested_json_section doc
      ("serviceContracts/" ++ service_name ++ ".json")
      ["components", "schemas"])) = false := by
    rw [← attemptTruthy_eq]; exact h1
  simp [get_service_schemas, h1', h2, h3, attemptValue_ok]

/-- Witness for the C2 theorem on a Swagger-2.0-only document. -/
theorem get_service_schemas_definitions_fallback_witness :
    get_service_schemas (Json.obj [("definitions", Json.obj [("A", Json.str "t")])]) "svc" =
      .ok (Json.obj [("A", Json.str "t")]) :=
  get_service_schemas_definitions_fallback
    (Json.obj [("definitions", Json.obj [("A", Json.str "t")])]) "svc"
    (Json.obj [("A", Json.str "t")]) rfl rfl rfl

/-- Claim C3, counterexample: when both shapes are present but empty,
both lookups succeed with falsy values, so both recorded error strings
stay empty and the aggregated diagnostic is just `"Errors: , "` — it
references neither attempted lookup path. -/
theorem get_service_schemas_both_empty_counterexample :
    get_service_schemas
        (Json.obj [("components", Json.obj [("schemas", Json.obj [])]),
                   ("definitions", Json.obj [])]) "svc" = .error "Errors: , " ∧
    hasSubstr "Errors: , " "components/schemas" = false ∧
    hasSubstr "Errors: , " "definitions" = false :=
  ⟨rfl, rfl, rfl⟩

/-- Claim C3 (amended: the resolver never returns an empty success — it
always fails when both attempts are falsy — and the aggregated
diagnostic names both attempted lookup paths in the case where both
lookups actually raised; a lookup that merely returned an empty value
contributes an empty message part). -/
theorem get_service_schemas_neither_shape (doc : Json) (service_name : String)
    (h1 : attemptTruthy (read_nested_json_section doc
        ("serviceContracts/" ++ service_name ++ ".json")
        ["components", "schemas"]) = false)
    (h2 : attemptTruthy (read_nested_json_section doc
        ("serviceContracts/" ++ service_name ++ ".json") ["definitions"]) = false) :
    ∃ msg, get_service_schemas doc service_name = .error msg ∧
      ∀ e1 e2,
        read_nested_json_section doc
          ("serviceContracts/" ++ service_name ++ ".json")
          ["components", "schemas"] = .error e1 →
        read_nested_json_section doc
          ("serviceContracts/" ++ service_name ++ ".json") ["definitions"] = .error e2 →
        hasSubstr msg "(components/schemas)" = true ∧
        hasSubstr msg "(definitions)" = true := by
  have h1' : truthy (attemptValue (read_nested_json_section doc
      ("serviceContracts/" ++ service_name ++ ".json")
      ["components", "schemas"])) = false := by
    rw [← attemptTruthy_eq]; exact h1
  have h2' : truthy (attemptValue (read_nested_json_section doc
      ("serviceContracts/" ++ service_name ++ ".json") ["definitions"])) = false := by
    rw [← attemptTruthy_eq]; exact h2
  refine ⟨"Errors: " ++
      (match read_nested_json_section doc
          ("serviceContracts/" ++ service_name ++ ".json")
          ["components", "schemas"] with
        | .ok _ => ""
        | .error e =>
          "Error reading serviceContracts/" ++ service_name ++
            ".json (components/schemas): " ++ e) ++ ", " ++
      (match read_nested_json_section doc
          ("serviceContracts/" ++ service_name ++ ".json") ["definitions"] with
        | .ok _ => ""
        | .error e =>
          "Error reading serviceContracts/" ++ service_name ++
            ".json (definitions): " ++ e), ?_, ?_⟩
  · simp [get_service_schemas, h1', h2']
  · intro e1 e2 he1 he2
    simp only [he1, he2]
    constructor
    · apply hasSubstr_append_l
      apply hasSubstr_append_l
      apply hasSubstr_append_r
      apply hasSubstr_append_l
      apply hasSubstr_append_r
      decide
    · apply hasSubstr_append_r
      apply hasSubstr_append_l
      apply hasSubstr_append_r
      decide

/-- Witness for the C3 theorem on the empty document (both lookups
raise, both paths are named in the diagnostic). -/
theorem get_service_schemas_neither_shape_witness :
    ∃ msg, get_service_schemas (Json.obj []) "svc" = .error msg ∧
      ∀ e1 e2,
        read_nested_json_section (Json.obj []) "serviceContracts/svc.json"
          ["components", "schemas"] = .error e1 →
        read_nested_json_section (Json.obj []) "serviceContracts/svc.json"
          ["definitions"] = .error e2 →
        hasSubstr msg "(components/schemas)" = true ∧
        hasSubstr msg "(definitions)" = true :=
  get_service_schemas_neither_shape (Json.obj []) "svc" rfl rfl

theorem lookupKey_none_any (fields : List (String × Json)) (k : String)
    (h : lookupKey fields k = none) :
    fields.any (fun kv => kv.1 == k) = false := by
  induction fields with
  | nil => rfl
  | cons a rest ih =>
    obtain ⟨ka, va⟩ := a
    by_cases hk : ka = k
    · simp [lookupKey, hk] at h
    · rw [lookupKey, if_neg hk] at h
      simp [hk, ih h]

theorem connect_state (s : Session) (o n : String) (outcome : Except String Repo) :
    (connect_to_repo s o n outcome).1 = s ∨
    ∃ r, (connect_to_repo s o n outcome).1 = { s with repo := some r } := by
  cases outcome with
  | ok r => exact Or.inr ⟨r, rfl⟩
  | error e => exact Or.inl rfl

theorem read_swagger_state (s : Session) (fp sn : String) (fo : FetchOutcome) :
    (read_swagger_json s fp sn fo).1 = s ∨
    ∃ doc, (read_swagger_json s fp sn fo).1 =
      { s with swagger_json := some doc, service_name := some sn } := by
  cases hr : s.repo with
  | none => exact Or.inl (by simp [read_swagger_json, hr])
  | some r =>
    cases fo with
    | couldNotRetrieve => exact Or.inl (by simp [read_swagger_json, hr])
    | isDirectory => exact Or.inl (by simp [read_swagger_json, hr])
    | decodeFailed => exact Or.inl (by simp [read_swagger_json, hr])
    | invalidJson => exact Or.inl (by simp [read_swagger_json, hr])
    | parsed doc =>
      cases hv : swaggerValid doc with
      | error e => exact Or.inl (by simp [read_swagger_json, hr, hv])
      | ok b =>
        cases b with
        | true => exact Or.inr ⟨doc, by simp [read_swagger_json, hr, hv]⟩
        | false => exact Or.inl (by simp [read_swagger_json, hr, hv])

theorem generate_state (s : Session) (gen : String → String) :
    (generate_typescript_dtos s gen).1 = s ∨
    ((∃ d, (generate_typescript_dtos s gen).1 =
        { s with generated_typescript_dto := some d }) ∧
      ∃ nm, s.service_name = some nm) := by
  cases hs : s.swagger_json with
  | none => exact Or.inl (by simp [generate_typescript_dtos, hs])
  | some sw =>
    cases ht : truthy sw with
    | false => exact Or.inl (by simp [generate_typescript_dtos, hs, ht])
    | true =>
      cases hn : s.service_name with
      | none => exact Or.inl (by simp [generate_typescript_dtos, hs, ht, hn])
      | some svc =>
        by_cases hsvc : svc = ""
        · exact Or.inl (by simp [generate_typescript_dtos, hs, ht, hn, hsvc])
        · cases hsel : selectSchemas sw with
          | error e =>
            cases e with
            | noSchemas =>
              exact Or.inl (by simp [generate_typescript_dtos, hs, ht, hn, hsvc, hsel])
            | pyError =>
              exact Or.inl (by simp [generate_typescript_dtos, hs, ht, hn, hsvc, hsel])
          | ok items =>
            refine Or.inr ⟨⟨⟨"// Generated TypeScript DTOs for " ++ svc ++ "\n\n" ++
              String.intercalate "\n"
                (items.map (fun kv => (generate_dto_prompt gen kv.1 kv.2).1)),
              "/src/models/" ++ svc ++ ".model.ts"⟩, ?_⟩, svc, rfl⟩
            simp [generate_typescript_dtos, hs, ht, hn, hsvc, hsel]

theorem reachable_dto_service (s : Session) (h : Reachable s) :
    s.generated_typescript_dto ≠ none → s.service_name ≠ none := by
  induction h with
  | init => intro hd; simp [initSession] at hd
  | connect s' o n outcome _ ih =>
    rcases connect_state s' o n outcome with he | ⟨r, he⟩ <;> rw [he]
    · exact ih
    · simpa using ih
  | readSwagger s' fp sn fo _ ih =>
    rcases read_swagger_state s' fp sn fo with he | ⟨doc, he⟩ <;> rw [he]
    · exact ih
    · intro _; simp
  | generate s' gen _ ih =>
    rcases generate_state s' gen with he | ⟨⟨d, he⟩, nm, hnm⟩ <;> rw [he]
    · exact ih
    · intro _; simp [hnm]

/-- Claim C9: each downstream tool fails with its specific descriptive
message, leaving the session untouched, when a prerequisite context field
is unset/falsy — `read_swagger_json` without a connected repo,
`generate_typescript_dtos` without stored swagger JSON or without a
truthy service name, `prepare_dto_for_push` without a repo or without a
generated DTO; and on every reachable session state, whenever
`prepare_dto_for_push` passes its guards the service name it reads is
genuinely set, so no tool ever operates on partially-initialised state. -/
theorem session_prerequisite_guards :
    (∀ s folder svc fo, s.repo = none →
      read_swagger_json s folder svc fo =
        (s, "Error: No repository connected. Use connect_to_repo first.")) ∧
    (∀ s gen, optTruthy s.swagger_json = false →
      generate_typescript_dtos s gen =
        (s, "Error: No swagger JSON read. Use read_swagger_json first.")) ∧
    (∀ s gen, optTruthy s.swagger_json = true → optStrTruthy s.service_name = false →
      generate_typescript_dtos s gen =
        (s, "Error: No service name stored for flow. Use read_swagger_json first.")) ∧
    (∀ s, s.repo = none → prepare_dto_for_push s = .failed "No repository connected") ∧
    (∀ s r, s.repo = some r → s.generated_typescript_dto = none →
      prepare_dto_for_push s = .failed "No generated DTO found") ∧
    (∀ s, Reachable s → ∀ r d, s.repo = some r → s.generated_typescript_dto = some d →
      ∃ svc, s.service_name = some svc ∧
        prepare_dto_for_push s =
          .ready (r.owner ++ "/" ++ r.name) (some svc) d.path d.content r.default_branch) := by
  refine ⟨?_, ?_, ?_, ?_, ?_, ?_⟩
  · intro s folder svc fo h
    simp [read_swagger_json, h]
  · intro s gen h
    cases hs : s.swagger_json with
    | none => simp [generate_typescript_dtos, hs]
    | some sw =>
      rw [hs] at h
      simp only [optTruthy] at h
      simp [generate_typescript_dtos, hs, h]
  · intro s gen h1 h2
    cases hs : s.swagger_json with
    | none => rw [hs] at h1; simp [optTruthy] at h1
    | some sw =>
      rw [hs] at h1
      simp only [optTruthy] at h1
      cases hn : s.service_name with
      | none => simp [generate_typescript_dtos, hs, h1, hn]
      | some svc =>
        rw [hn] at h2
        simp only [optStrTruthy, bne_eq_false_iff_eq] at h2
        simp [generate_typescript_dtos, hs, h1, hn, h2]
  · intro s h
    simp [prepare_dto_for_push, h]
  · intro s r h1 h2
    simp [prepare_dto_for_push, h1, h2]
  · intro s hre r d hr hd
    have hsn : s.service_name ≠ none :=
      reachable_dto_service s hre (by simp [hd])
    cases hm : s.service_name with
    | none => exact absurd hm hsn
    | some nm =>
      exact ⟨nm, rfl, by simp [prepare_dto_for_push, hr, hd, hm]⟩

/-- Witness for the C9 theorem: the first guard at the freshly
initialised session. -/
theorem session_prerequisite_guards_witness :
    read_swagger_json initSession "serviceContracts" "svc" .couldNotRetrieve =
      (initSession, "Error: No repository connected. Use connect_to_repo first.") :=
  session_prerequisite_guards.1 initSession "serviceContracts" "svc" .couldNotRetrieve rfl

/-- Claim C10, counterexample: the parsed document `["swagger"]` is a
JSON array — it has no top-level keys at all — yet the Python membership
test `'swagger' in doc` finds the string element, so the operation
reports success and stores the document and service name. -/
theorem read_swagger_stores_keyless_array_counterexample :
    hasTopKey (Json.arr [Json.str "swagger"]) "swagger" = false ∧
    hasTopKey (Json.arr [Json.str "swagger"]) "openapi" = false ∧
    read_swagger_json ⟨some ⟨"o", "r", "main"⟩, none, none, none⟩
        "serviceContracts" "svc" (.parsed (Json.arr [Json.str "swagger"])) =
      (⟨some ⟨"o", "r", "main"⟩, some (Json.arr [Json.str "swagger"]), some "svc", none⟩,
       "Swagger JSON is successfully found and stored to context") :=
  ⟨rfl, rfl, rfl⟩

/-- Claim C10 (amended: restricted to documents that are keyed mappings):
for a connected session, a parsed JSON object carrying neither a
top-level `swagger` key nor a top-level `openapi` key is rejected with
the invalid-definition error message, and neither the document nor the
service name is stored (the session is returned unchanged). -/
theorem read_swagger_rejects_keyless_object (s : Session) (r : Repo)
    (folder svc : String) (fields : List (String × Json))
    (hr : s.repo = some r)
    (h1 : lookupKey fields "swagger" = none)
    (h2 : lookupKey fields "openapi" = none) :
    read_swagger_json s folder svc (.parsed (Json.obj fields)) =
      (s, "Error: Invalid Swagger/OpenAPI definition at " ++
        (pyRstripSlash folder ++ "/" ++ svc ++ ".json")) := by
  have ha1 := lookupKey_none_any fields "swagger" h1
  have ha2 := lookupKey_none_any fields "openapi" h2
  simp [read_swagger_json, hr, swaggerValid, pyIn, ha1, ha2]

/-- Witness for the C10 theorem on a concrete keyless object document. -/
theorem read_swagger_rejects_keyless_object_witness :
    read_swagger_json ⟨some ⟨"o", "r", "main"⟩, none, none, none⟩
        "serviceContracts" "svc" (.parsed (Json.obj [("title", Json.str "x")])) =
      (⟨some ⟨"o", "r", "main"⟩, none, none, none⟩,
       "Error: Invalid Swagger/OpenAPI definition at " ++
         (pyRstripSlash "serviceContracts" ++ "/" ++ "svc" ++ ".json")) :=
  read_swagger_rejects_keyless_object ⟨some ⟨"o", "r", "main"⟩, none, none, none⟩
    ⟨"o", "r", "main"⟩ "serviceContracts" "svc" [("title", Json.str "x")] rfl rfl rfl
